import Mathlib

/-!
Shallow embedding of the alteo control API site controller: the circuit
breaker (`breaker.py`), the control-inbox upserts (`sender.py`,
`control_fetcher.py`), the upstream payload builder and send handler
(`sender.py`), the register decoding and cos-phi normalisation
(`collector_alteo_term1.py`), the ESS capacity derivation
(`poll_ess_hithium.py`), and the per-POD control cycle
(`control_executor.py`).  Python floats are modelled as rationals (reals
where `math.acos` is involved), machine integers as `Int`/`Nat` with
explicit two's-complement arithmetic, SQL rows as structures, and the
per-pod keyed tables as `Option` of a row.
-/

namespace Alteo

/- ================= breaker.py ================= -/

/-- Cooldown window of the circuit breaker, `COOLDOWN_MINUTES = 5` in
`breaker.py`; times are modelled in seconds, so the window is 300 s. -/
def COOLDOWN_MINUTES : ℚ := 5

/-- The module-level `_failed_plants` dict of `breaker.py`:
a finite map from device id to the time of its last recorded failure. -/
abbrev BreakerState := List (Nat × ℚ)

/-- Lookup of `_failed_plants[plant_id]`. -/
def bFind (s : BreakerState) (pid : Nat) : Option ℚ :=
  (s.find? (fun e => e.1 == pid)).map (fun e => e.2)

/-- Deletion `del _failed_plants[plant_id]`. -/
def bErase (s : BreakerState) (pid : Nat) : BreakerState :=
  s.filter (fun e => e.1 != pid)

/-- Embedding of `breaker.should_skip`: returns whether the device is
skipped together with the (possibly mutated) table, since a stale entry
is deleted by the check itself. -/
def should_skip (s : BreakerState) (now : ℚ) (pid : Nat) : Bool × BreakerState :=
  match bFind s pid with
  | none => (false, s)
  | some last_fail =>
      if now - last_fail < COOLDOWN_MINUTES * 60 then (true, s)
      else (false, bErase s pid)

/-- Embedding of `breaker.on_failure`: record the failure time for the device. -/
def on_failure (s : BreakerState) (now : ℚ) (pid : Nat) : BreakerState :=
  (pid, now) :: bErase s pid

/-- Embedding of `breaker.on_success`: drop the entry when one exists. -/
def on_success (s : BreakerState) (pid : Nat) : BreakerState :=
  if (bFind s pid).isSome then bErase s pid else s

/-- Meter-poller task gate from `collector_alteo_term1.main`: a plant is
polled this cycle iff `not should_skip(p[\x7b\x7d...])`, i.e. the fan-out
list comprehension filters on the breaker. -/
def collector_attempts (s : BreakerState) (now : ℚ) (pid : Nat) : Bool :=
  !(should_skip s now pid).1

/-- Outcome of one field-bus poll of a device. -/
inductive PollOutcome where
  | success
  | failure
deriving DecidableEq

/-- One `poll_ess` call from `poll_ess_hithium.py` for a single ESS unit:
the `should_skip` guard at its head is quoted out in the source (a
triple-quoted string expression, not executed), so the poll always
proceeds; the returned flag records whether a field-bus read was
attempted, and the breaker is updated from the outcome
(`on_success` / `on_failure`). -/
def poll_ess_cycle (s : BreakerState) (now : ℚ) (pid : Nat) (o : PollOutcome) :
    Bool × BreakerState :=
  (true,
    match o with
    | .success => on_success s pid
    | .failure => on_failure s now pid)

/- ================= alteo_controls_inbox ================= -/

/-- Row of `alteo_controls_inbox` (unique on `pod`); `usesetpoint` exists
only in the `control_fetcher.py` variant of the upsert and is left
untouched by the sender's. -/
structure InboxRow where
  pod : String
  heartbeat : Option Int
  sum_setpoint : Option ℚ
  scheduled_reference : Option ℚ
  usesetpoint : Option Int
  received_at : ℚ
deriving DecidableEq

/-- SQL comparison `a < b` under NULL semantics: unknown (hence not
satisfied) when either side is NULL. -/
def sqlLt (a b : Option Int) : Bool :=
  match a, b with
  | some x, some y => x < y
  | _, _ => false

/-- Embedding of `sender.update_heartbeat_inbox` for the keyed row of one
pod: `INSERT ... ON CONFLICT (pod) DO UPDATE ... WHERE
alteo_controls_inbox.heartbeat IS NULL OR alteo_controls_inbox.heartbeat
< EXCLUDED.heartbeat`.  A missing row is inserted; an existing row is
replaced only when its stored heartbeat is NULL or strictly below the
incoming one. -/
def sender_upsert (row : Option InboxRow) (pod : String) (hb : Option Int)
    (sp sr : Option ℚ) (now : ℚ) : InboxRow :=
  match row with
  | none => ⟨pod, hb, sp, sr, none, now⟩
  | some r =>
      if r.heartbeat = none ∨ sqlLt r.heartbeat hb then
        ⟨pod, hb, sp, sr, r.usesetpoint, now⟩
      else r

/-- Embedding of `control_fetcher.update_heartbeat_inbox` for the keyed
row of one pod: `INSERT ... ON CONFLICT (pod) DO UPDATE SET ...` with no
WHERE predicate, so the stored row is replaced unconditionally. -/
def fetcher_upsert (row : Option InboxRow) (pod : String) (hb : Option Int)
    (sp sr : Option ℚ) (usp : Option Int) (now : ℚ) : InboxRow :=
  match row with
  | none => ⟨pod, hb, sp, sr, usp, now⟩
  | some _ => ⟨pod, hb, sp, sr, usp, now⟩

/-- Heartbeat of the (possibly absent) inbox row of a pod. -/
def rowHeartbeat (row : Option InboxRow) : Option Int :=
  row.bind (fun r => r.heartbeat)

/-- Order on stored heartbeats with NULL as bottom: the stored heartbeat
never decreases exactly when consecutive values are related by this. -/
def hbLe (a b : Option Int) : Prop :=
  match a, b with
  | none, _ => True
  | some x, some y => x ≤ y
  | some _, none => False

/-- One upstream reply as consumed by `send_sync` (the first entry of
`controls[]`). -/
structure Reply where
  hb : Option Int
  sp : Option ℚ
  sr : Option ℚ
  at_ : ℚ
deriving DecidableEq

/-- Folding a sequence of upstream replies through the sender's upsert for
one pod. -/
def applyReplies (row : Option InboxRow) (pod : String) (rs : List Reply) :
    Option InboxRow :=
  rs.foldl (fun acc r => some (sender_upsert acc pod r.hb r.sp r.sr r.at_)) row

theorem hbLe_refl (a : Option Int) : hbLe a a := by
  cases a <;> simp [hbLe]

theorem hbLe_trans {a b c : Option Int} (h1 : hbLe a b) (h2 : hbLe b c) :
    hbLe a c := by
  cases a <;> cases b <;> cases c <;> simp_all [hbLe] <;> omega

theorem sender_upsert_hbLe (row : Option InboxRow) (pod : String)
    (hb : Option Int) (sp sr : Option ℚ) (now : ℚ) :
    hbLe (rowHeartbeat row) (sender_upsert row pod hb sp sr now).heartbeat := by
  cases row with
  | none => simp [rowHeartbeat, hbLe]
  | some r =>
      simp only [sender_upsert, rowHeartbeat, Option.bind_some]
      by_cases hc : r.heartbeat = none ∨ sqlLt r.heartbeat hb
      · rw [if_pos hc]
        rcases hc with h | h
        · simp [h, hbLe]
        · cases ha : r.heartbeat <;> cases hbv : hb <;>
            simp_all [sqlLt, hbLe] <;> omega
      · rw [if_neg hc]
        exact hbLe_refl _

theorem applyReplies_hbLe (row : Option InboxRow) (pod : String)
    (rs : List Reply) :
    hbLe (rowHeartbeat row) (rowHeartbeat (applyReplies row pod rs)) := by
  induction rs generalizing row with
  | nil => exact hbLe_refl _
  | cons r rs ih =>
      refine hbLe_trans ?_ (ih (some (sender_upsert row pod r.hb r.sp r.sr r.at_)))
      simpa [rowHeartbeat] using sender_upsert_hbLe row pod r.hb r.sp r.sr r.at_

/-- Claim C1 (corrected): the reporter's upsert (`sender.update_heartbeat_inbox`)
keeps the stored heartbeat of a pod monotonically non-decreasing across any
sequence of upstream replies, and a reply whose heartbeat is not strictly
greater than the stored (non-null) one leaves the row exactly as it was;
the fetcher's upsert (`control_fetcher.update_heartbeat_inbox`) carries no
such predicate (see the counterexample). -/
theorem heartbeat_inbox_monotone :
    (∀ (row : Option InboxRow) (pod : String) (rs : List Reply),
      hbLe (rowHeartbeat row) (rowHeartbeat (applyReplies row pod rs))) ∧
    (∀ (r : InboxRow) (pod : String) (a b : Int) (sp sr : Option ℚ) (now : ℚ),
      r.heartbeat = some a → b ≤ a →
      sender_upsert (some r) pod (some b) sp sr now = r) := by
  refine ⟨applyReplies_hbLe, ?_⟩
  intro r pod a b sp sr now ha hba
  simp [sender_upsert, ha, sqlLt, not_lt.mpr hba]

/-- Witness for `heartbeat_inbox_monotone` at a concrete row: a stored
heartbeat 8 is untouched by a reply carrying heartbeat 5 through the
sender's upsert. -/
theorem heartbeat_inbox_monotone_witness :
    sender_upsert (some ⟨"POD1", some 8, some 100, none, none, 0⟩)
      "POD1" (some 5) (some 50) none 1 = ⟨"POD1", some 8, some 100, none, none, 0⟩ :=
  heartbeat_inbox_monotone.2 ⟨"POD1", some 8, some 100, none, none, 0⟩
    "POD1" 8 5 (some 50) none 1 rfl (by decide)

/-- Counterexample to claim C1 as stated: the fetcher's upsert
(`control_fetcher.update_heartbeat_inbox`) replaces the stored row
unconditionally, so a reply carrying heartbeat 5 overwrites a stored
heartbeat 8 and the inbox heartbeat decreases. -/
theorem heartbeat_inbox_not_monotone_via_fetcher :
    (fetcher_upsert (some ⟨"POD1", some 8, some 100, none, none, 0⟩)
      "POD1" (some 5) (some 50) none (some 0) 1).heartbeat = some 5 ∧
    (5 : Int) < 8 := by
  constructor
  · rfl
  · decide

theorem bFind_bErase (s : BreakerState) (pid : Nat) :
    bFind (bErase s pid) pid = none := by
  have h : (bErase s pid).find? (fun e => e.1 == pid) = none := by
    rw [List.find?_eq_none]
    intro e he
    have hp := List.of_mem_filter he
    simpa using hp
  simp [bFind, h]

theorem bFind_on_success (s : BreakerState) (pid : Nat) :
    bFind (on_success s pid) pid = none := by
  unfold on_success
  cases hf : bFind s pid with
  | none => simpa [hf]
  | some t => simpa [hf] using bFind_bErase s pid

/-- Claim C2 (corrected): only the meter poller's fan-out consults the
breaker — a device with an entry fresher than the 5-minute cooldown is
not polled by `collector_alteo_term1.main`; the skip check clears an
entry at or past the cooldown; a successful operation removes the entry;
but the ESS poller proceeds to its field-bus read regardless of the
breaker (its `should_skip` guard is quoted out in `poll_ess_hithium.py`,
as is the one in `control_executor.control_loop`). -/
theorem breaker_gating :
    (∀ (s : BreakerState) (now : ℚ) (pid : Nat) (t : ℚ),
      bFind s pid = some t → now - t < COOLDOWN_MINUTES * 60 →
      collector_attempts s now pid = false) ∧
    (∀ (s : BreakerState) (now : ℚ) (pid : Nat) (t : ℚ),
      bFind s pid = some t → ¬ now - t < COOLDOWN_MINUTES * 60 →
      should_skip s now pid = (false, bErase s pid)) ∧
    (∀ (s : BreakerState) (pid : Nat), bFind (on_success s pid) pid = none) ∧
    (∀ (s : BreakerState) (now : ℚ) (pid : Nat) (o : PollOutcome),
      (poll_ess_cycle s now pid o).1 = true) := by
  refine ⟨?_, ?_, bFind_on_success, fun _ _ _ _ => rfl⟩
  · intro s now pid t hf hfresh
    simp [collector_attempts, should_skip, hf, hfresh]
  · intro s now pid t hf hstale
    simp [should_skip, hf, hstale]

/-- Witness for `breaker_gating` at concrete inputs: a device that failed
at time 0 is not polled by the meter poller at time 60, its entry is
cleared by the skip check at time 301, a success removes the entry, and
the ESS poller attempts its read regardless. -/
theorem breaker_gating_witness :
    collector_attempts (on_failure [] 0 1) 60 1 = false ∧
    should_skip (on_failure [] 0 1) 301 1 = (false, bErase (on_failure [] 0 1) 1) ∧
    bFind (on_success (on_failure [] 0 1) 1) 1 = none ∧
    (poll_ess_cycle (on_failure [] 0 1) 60 1 .success).1 = true :=
  ⟨breaker_gating.1 (on_failure [] 0 1) 60 1 0 rfl (by norm_num [COOLDOWN_MINUTES]),
   breaker_gating.2.1 (on_failure [] 0 1) 301 1 0 rfl (by norm_num [COOLDOWN_MINUTES]),
   breaker_gating.2.2.1 (on_failure [] 0 1) 1,
   breaker_gating.2.2.2 (on_failure [] 0 1) 60 1 .success⟩

/-- Counterexample to claim C2 as stated: with a breaker entry recorded 60
seconds ago (well inside the 5-minute cooldown, so `should_skip` answers
true), the ESS poller still attempts its field-bus read — `poll_ess`
never consults the breaker, its guard being a quoted-out string in the
source. -/
theorem breaker_ignored_by_ess_poller :
    (should_skip (on_failure [] 0 1) 60 1).1 = true ∧
    (poll_ess_cycle (on_failure [] 0 1) 60 1 .success).1 = true := by
  constructor
  · norm_num [should_skip, on_failure, bFind, bErase, COOLDOWN_MINUTES]
  · rfl

/- ================= control_executor.py ================= -/

/-- Tunables at the head of `control_executor.py`. -/
def DEADBAND_KW : ℚ := 1

/-- Proportional gain `KP = 0.3`. -/
def KP : ℚ := 3 / 10

/-- Minimum spacing between ESS writes, `MIN_WRITE_INTERVAL = 4.0`. -/
def MIN_WRITE_INTERVAL : ℚ := 4

/-- Row of the `plants` table as consumed by the executor. -/
structure Plant where
  pod_id : String
  plant_type : String
  logger_manufacturer : String
  ip_address : String
  port : Nat
  logger_slave_id : Nat
  normal_power : ℚ
  alteo_api_control : Bool
deriving DecidableEq

/-- Latest ESS state row as returned by `get_latest_ess_state`: endpoint of
the unit plus the latest available charge and discharge capacities. -/
structure EssState where
  ip : String
  port : Nat
  cap_ch : ℚ
  cap_dis : ℚ
deriving DecidableEq

/-- Store contents visible to one executor cycle: the `plants` table, and
per pod the latest inbox setpoint and the latest PCC power reading, plus
the latest ESS row. -/
structure Db where
  plants : List Plant
  target : List (String × ℚ)
  pcc : List (String × ℚ)
  ess : List (String × EssState)
deriving DecidableEq

/-- Embedding of `get_latest_target_kw`: latest `sum_setpoint` of the
inbox row of the pod. -/
def get_latest_target_kw (db : Db) (pod : String) : Option ℚ :=
  (db.target.find? (fun e => e.1 == pod)).map (fun e => e.2)

/-- Embedding of `get_latest_pcc_kw`: latest `sum_active_power` of
`plant_data_term1` for the pod. -/
def get_latest_pcc_kw (db : Db) (pod : String) : Option ℚ :=
  (db.pcc.find? (fun e => e.1 == pod)).map (fun e => e.2)

/-- Embedding of `get_latest_ess_state` for the pod. -/
def get_latest_ess_state (db : Db) (pod : String) : Option EssState :=
  (db.ess.find? (fun e => e.1 == pod)).map (fun e => e.2)

/-- Embedding of `get_logger_info`: `SELECT ... FROM plants WHERE pod_id =
%s AND plant_type = 'PV_ONLY' LIMIT 1` — note the `PV_ONLY` filter in the
source query. -/
def get_logger_info (db : Db) (pod : String) : Option Plant :=
  db.plants.find? (fun p => p.pod_id == pod && p.plant_type == "PV_ONLY")

/-- Embedding of `get_plant_type`: the same `PV_ONLY`-filtered query, so
it answers `'PV_ONLY'` or nothing. -/
def get_plant_type (db : Db) (pod : String) : Option String :=
  (db.plants.find? (fun p => p.pod_id == pod && p.plant_type == "PV_ONLY")).map
    (fun p => p.plant_type)

/-- Per-pod regulator state (`PodControlState`). -/
structure PodControlState where
  last_cmd_kw : ℚ
  last_write_ts : ℚ
deriving DecidableEq

/-- Field-bus write issued by one executor cycle, recorded at the level of
the actuator invocation: `write_ess_setpoint(ip, port, kw)`,
`apply_huawei_pv_limit(logger, kw)` or `apply_fronius_pv_limit(logger,
kw)` (the latter two encode registers from the vendor descriptor before
writing). -/
inductive FieldWrite where
  | essSetpoint (ip : String) (port : Nat) (kw : ℚ)
  | huaweiPvLimit (kw : ℚ)
  | froniusPvLimit (kw : ℚ)
deriving DecidableEq

/-- PV-limit actuator dispatch shared by the two branches of the loop:
`manufacturer.lower()` selects Huawei or Fronius; any other vendor issues
nothing. -/
def pv_limit_writes (manufacturer : String) (kw : ℚ) : List FieldWrite :=
  if manufacturer.toLower == "huawei" then [.huaweiPvLimit kw]
  else if manufacturer.toLower == "fronius" then [.froniusPvLimit kw]
  else []

/-- One iteration of `control_loop` for a pod, from the top of the `while`
body to the `finally`: reads the latest target, PCC, logger row and plant
type; initialises `last_cmd_kw` from the first PCC reading; skips on
missing data or inside the deadband; otherwise branches on the plant
type exactly as the source does (the quoted-out breaker guard is not
executed).  Returns the field-bus writes issued, the new regulator state
and the new `first_run` flag. -/
def control_cycle (db : Db) (pod : String) (st : PodControlState)
    (first_run : Bool) (now : ℚ) : List FieldWrite × PodControlState × Bool :=
  let target := get_latest_target_kw db pod
  let pcc := get_latest_pcc_kw db pod
  let st1 := match first_run, pcc with
    | true, some p => ({ st with last_cmd_kw := p }, false)
    | _, _ => (st, first_run)
  let st := st1.1
  let first_run := st1.2
  let logger := get_logger_info db pod
  let ptype := get_plant_type db pod
  match target, pcc, logger, ptype with
  | some t, some p, some lg, some pt =>
      let ess := if pt == "PV_ESS" then get_latest_ess_state db pod else none
      let error := t - p
      if |error| < DEADBAND_KW then ([], st, first_run)
      else
        if pt == "PV_ESS" && ess.isSome then
          match ess with
          | some e =>
              if (decide (0 < error) && decide (0 < e.cap_dis)) ||
                 (decide (error < 0) && decide (0 < e.cap_ch)) then
                let new_cmd := st.last_cmd_kw + KP * error
                if now - st.last_write_ts < MIN_WRITE_INTERVAL then
                  ([], st, first_run)
                else
                  ([.essSetpoint e.ip e.port new_cmd],
                   { last_cmd_kw := new_cmd, last_write_ts := now }, first_run)
              else if error < 0 then
                (pv_limit_writes lg.logger_manufacturer t, st, first_run)
              else ([], st, first_run)
          | none => ([], st, first_run)
        else if pt == "PV_ONLY" then
          let new_limit := max 0 (min lg.normal_power (st.last_cmd_kw + KP * error))
          (pv_limit_writes lg.logger_manufacturer new_limit,
           { st with last_cmd_kw := new_limit }, first_run)
        else ([], st, first_run)
  | _, _, _, _ => ([], st, first_run)

theorem get_plant_type_ne_pv_ess (db : Db) (pod : String) :
    get_plant_type db pod = none ∨ get_plant_type db pod = some "PV_ONLY" := by
  unfold get_plant_type
  cases hf : db.plants.find? (fun p => p.pod_id == pod && p.plant_type == "PV_ONLY") with
  | none => exact Or.inl rfl
  | some p =>
      right
      have hp := List.find?_some hf
      simp only [Bool.and_eq_true, beq_iff_eq] at hp
      simp [hp.2]

/-- Store of the failing input for claim C3: one controlled plant of type
`PV_ESS` with a Huawei logger, inbox target 200 kW, latest PCC 170 kW and
an ESS with 50 kWh of available discharge capacity. -/
def dbC3 : Db :=
  { plants := [⟨"POD1", "PV_ESS", "huawei", "10.0.0.1", 502, 1, 250, true⟩],
    target := [("POD1", 200)],
    pcc := [("POD1", 170)],
    ess := [("POD1", ⟨"10.0.0.2", 502, 10, 50⟩)] }

/-- Claim C3 (code bug): `get_plant_type` (and `get_logger_info`) filter on
`plant_type = 'PV_ONLY'`, so no executor cycle ever sees the type
`PV_ESS`; on the spec's happy-path input — target 200 kW, PCC 170 kW,
available discharge 50 — the cycle skips as missing data and issues no
ESS write at all, where the spec requires one write of last_cmd + 9 kW. -/
theorem pv_ess_branch_unreachable :
    (∀ (db : Db) (pod : String),
      get_plant_type db pod = none ∨ get_plant_type db pod = some "PV_ONLY") ∧
    control_cycle dbC3 "POD1" ⟨170, 0⟩ false 100 = ([], ⟨170, 0⟩, false) := by
  exact ⟨get_plant_type_ne_pv_ess, by decide⟩

theorem control_cycle_deadband :
    ∀ (db : Db) (pod : String) (st : PodControlState) (fr : Bool) (now t p : ℚ),
      get_latest_target_kw db pod = some t →
      get_latest_pcc_kw db pod = some p →
      |t - p| < DEADBAND_KW →
      (control_cycle db pod st fr now).1 = [] ∧
      (control_cycle db pod st fr now).2.1.last_write_ts = st.last_write_ts ∧
      (control_cycle db pod st fr now).2.1.last_cmd_kw =
        (if fr then p else st.last_cmd_kw) := by
  intro db pod st fr now t p ht hp hd
  unfold control_cycle
  rw [ht, hp]
  cases fr with
  | false =>
      cases hl : get_logger_info db pod with
      | none => simp
      | some lg =>
          cases hpt : get_plant_type db pod with
          | none => simp
          | some pt =>
              simp only []
              rw [if_pos hd]
              simp
  | true =>
      cases hl : get_logger_info db pod with
      | none => simp
      | some lg =>
          cases hpt : get_plant_type db pod with
          | none => simp
          | some pt =>
              simp only []
              rw [if_pos hd]
              simp

/-- Claim C5 (corrected): when target and PCC are both available and the
error is inside the deadband, the cycle issues no field-bus write and
leaves `last_write_ts` untouched; `last_cmd_kw` is also untouched except
on a first cycle, which initialises it to the PCC reading before the
deadband check is reached. -/
theorem deadband_no_write :
    ∀ (db : Db) (pod : String) (st : PodControlState) (fr : Bool) (now t p : ℚ),
      get_latest_target_kw db pod = some t →
      get_latest_pcc_kw db pod = some p →
      |t - p| < DEADBAND_KW →
      (control_cycle db pod st fr now).1 = [] ∧
      (control_cycle db pod st fr now).2.1.last_write_ts = st.last_write_ts ∧
      (control_cycle db pod st fr now).2.1.last_cmd_kw =
        (if fr then p else st.last_cmd_kw) :=
  control_cycle_deadband

/-- Witness for `deadband_no_write` on a concrete store: target 100.5 kW,
PCC 100 kW, a steady (non-first) cycle leaves the state untouched and
writes nothing. -/
theorem deadband_no_write_witness :
    (control_cycle
      ⟨[⟨"POD5", "PV_ONLY", "huawei", "10.0.0.1", 502, 1, 250, true⟩],
       [("POD5", 201 / 2)], [("POD5", 100)], []⟩
      "POD5" ⟨100, 7⟩ false 10).1 = [] ∧
    (control_cycle
      ⟨[⟨"POD5", "PV_ONLY", "huawei", "10.0.0.1", 502, 1, 250, true⟩],
       [("POD5", 201 / 2)], [("POD5", 100)], []⟩
      "POD5" ⟨100, 7⟩ false 10).2.1.last_write_ts = 7 ∧
    (control_cycle
      ⟨[⟨"POD5", "PV_ONLY", "huawei", "10.0.0.1", 502, 1, 250, true⟩],
       [("POD5", 201 / 2)], [("POD5", 100)], []⟩
      "POD5" ⟨100, 7⟩ false 10).2.1.last_cmd_kw = (if False then 100 else 100) := by
  have h := deadband_no_write
    ⟨[⟨"POD5", "PV_ONLY", "huawei", "10.0.0.1", 502, 1, 250, true⟩],
     [("POD5", 201 / 2)], [("POD5", 100)], []⟩
    "POD5" ⟨100, 7⟩ false 10 (201 / 2) 100 rfl rfl
    (by norm_num [DEADBAND_KW, abs_lt])
  simpa using h

/-- Counterexample to claim C5 as stated: on the very first cycle with
target 100.5 kW and PCC 100 kW the error is inside the deadband and no
write occurs, yet `last_cmd_kw` does not stay unchanged — it moves from
its initial 0 to the PCC reading 100. -/
theorem deadband_first_cycle_changes_last_cmd :
    |(201 / 2 : ℚ) - 100| < DEADBAND_KW ∧
    (control_cycle
      ⟨[⟨"POD5", "PV_ONLY", "huawei", "10.0.0.1", 502, 1, 250, true⟩],
       [("POD5", 201 / 2)], [("POD5", 100)], []⟩
      "POD5" ⟨0, 0⟩ true 10).1 = [] ∧
    (control_cycle
      ⟨[⟨"POD5", "PV_ONLY", "huawei", "10.0.0.1", 502, 1, 250, true⟩],
       [("POD5", 201 / 2)], [("POD5", 100)], []⟩
      "POD5" ⟨0, 0⟩ true 10).2.1.last_cmd_kw = 100 ∧
    (100 : ℚ) ≠ 0 := by
  have h := control_cycle_deadband
    ⟨[⟨"POD5", "PV_ONLY", "huawei", "10.0.0.1", 502, 1, 250, true⟩],
     [("POD5", 201 / 2)], [("POD5", 100)], []⟩
    "POD5" ⟨0, 0⟩ true 10 (201 / 2) 100 rfl rfl
    (by norm_num [DEADBAND_KW, abs_lt])
  refine ⟨by norm_num [DEADBAND_KW, abs_lt], h.1, ?_, by norm_num⟩
  simpa using h.2.2

/- ================= poll_ess_hithium.py ================= -/

/-- Embedding of `calculate_capacity`: available charge and discharge in
kWh derived from the total capacity and the SOC percentages, each
floored at 0. -/
def calculate_capacity (total_kwh soc min_soc max_soc : ℚ) : ℚ × ℚ :=
  let current := total_kwh * soc / 100
  let charge := total_kwh * max_soc / 100 - current
  let discharge := current - total_kwh * min_soc / 100
  (max charge 0, max discharge 0)

/-- Claim C8 (corrected): with the SOC bounds also read as percentages in
[0, 100] and a nonnegative total capacity, both derived capacities are
nonnegative and their sum never exceeds the total capacity.  (With
`soc ∈ [0, 100]` alone the sum bound fails — see the counterexample.) -/
theorem capacity_bounds :
    ∀ (total soc min_soc max_soc : ℚ),
      0 ≤ total → 0 ≤ soc → soc ≤ 100 → 0 ≤ min_soc → max_soc ≤ 100 →
      0 ≤ (calculate_capacity total soc min_soc max_soc).1 ∧
      0 ≤ (calculate_capacity total soc min_soc max_soc).2 ∧
      (calculate_capacity total soc min_soc max_soc).1 +
        (calculate_capacity total soc min_soc max_soc).2 ≤ total := by
  intro total soc min_soc max_soc htot hs0 hs100 hmin hmax
  refine ⟨le_max_right _ _, le_max_right _ _, ?_⟩
  show max (total * max_soc / 100 - total * soc / 100) 0 +
      max (total * soc / 100 - total * min_soc / 100) 0 ≤ total
  rcases le_total (total * max_soc / 100 - total * soc / 100) 0 with hc | hc <;>
    rcases le_total (total * soc / 100 - total * min_soc / 100) 0 with hd | hd
  · rw [max_eq_right hc, max_eq_right hd]
    simpa using htot
  · rw [max_eq_right hc, max_eq_left hd]
    nlinarith [mul_nonneg htot hmin, mul_le_mul_of_nonneg_left hs100 htot]
  · rw [max_eq_left hc, max_eq_right hd]
    nlinarith [mul_nonneg htot hs0, mul_le_mul_of_nonneg_left hmax htot]
  · rw [max_eq_left hc, max_eq_left hd]
    nlinarith [mul_nonneg htot hmin, mul_le_mul_of_nonneg_left hmax htot]

/-- Witness for `capacity_bounds`: a 100 kWh container at 50 % SOC with
allowed SOC range [10, 90] has 40 kWh chargeable, 40 kWh dischargeable,
and their sum below the total capacity. -/
theorem capacity_bounds_witness :
    0 ≤ (calculate_capacity 100 50 10 90).1 ∧
    0 ≤ (calculate_capacity 100 50 10 90).2 ∧
    (calculate_capacity 100 50 10 90).1 + (calculate_capacity 100 50 10 90).2 ≤ 100 :=
  capacity_bounds 100 50 10 90 (by norm_num) (by norm_num) (by norm_num)
    (by norm_num) (by norm_num)

/-- Counterexample to claim C8 as stated: the claim constrains only
`soc ∈ [0, 100]`; with an out-of-range allowed-max SOC of 200 % the two
floored capacities of a 100 kWh container at 50 % SOC are 150 and 50 kWh,
whose sum 200 exceeds the total capacity 100. -/
theorem capacity_sum_exceeds_total :
    (0 : ℚ) ≤ 50 ∧ (50 : ℚ) ≤ 100 ∧
    calculate_capacity 100 50 0 200 = (150, 50) ∧
    ¬ (150 : ℚ) + 50 ≤ 100 := by
  refine ⟨by norm_num, by norm_num, ?_, by norm_num⟩
  norm_num [calculate_capacity]

/- ================= register decoding / encoding ================= -/

/-- Embedding of `convert_registers_to_scaled_value` from
`collector_alteo_term1.py`: one register sign-extends 16 bits, a pair is
combined high-word first and sign-extends 32 bits, anything else decodes
to nothing; the raw integer is divided by the gain. -/
def convert_registers_to_scaled_value (registers : List Nat) (gain : ℚ)
    (signed : Bool) : Option ℚ :=
  match registers with
  | [] => none
  | [r] =>
      let raw : Int :=
        if signed && decide (r &&& 0x8000 ≠ 0) then (r : Int) - 0x10000 else (r : Int)
      some ((raw : ℚ) / gain)
  | [r0, r1] =>
      let rawN : Nat := (r0 <<< 16) ||| r1
      let raw : Int :=
        if signed && decide (rawN &&& 0x80000000 ≠ 0) then (rawN : Int) - 0x100000000
        else (rawN : Int)
      some ((raw : ℚ) / gain)
  | _ => none

/-- Python `int()` truncation toward zero, as applied to
`target_kw * gain` in `apply_huawei_pv_limit`. -/
def pyInt (q : ℚ) : Int := q.num.tdiv (q.den : Int)

/-- Register image computed by `apply_huawei_pv_limit`:
`raw = int(target_kw * gain)`, two's-complement adjusted by `(1 << 32) +
raw` when signed and negative, then split high-word first with
`(raw >> 16) & 0xFFFF` and `raw & 0xFFFF`.  Within the signed 32-bit
range the adjusted value is nonnegative, so the Python shifts coincide
with the `Nat` ones used here. -/
def huawei_encode_regs (target_kw : ℚ) (gain : ℚ) (signed : Bool) : List Nat :=
  let raw0 : Int := pyInt (target_kw * gain)
  let raw : Int := if signed && decide (raw0 < 0) then ((1 <<< 32 : Nat) : Int) + raw0 else raw0
  let rawN : Nat := raw.toNat
  [(rawN >>> 16) &&& 0xFFFF, rawN &&& 0xFFFF]

/-- Modelled from the spec: the 16-bit two's-complement register image of
a signed value.  The repository only decodes single signed registers
(`convert_registers_to_scaled_value`, `read_registers`, `read_cos_phi`);
the encoding direction named by the spec's round-trip property does not
occur in `src/`, so it is taken from the spec's words (sign-extend /
two's complement on 16 bits). -/
def encode16 (v : Int) : Nat := (v % 65536).toNat

theorem and_two_pow_eq_zero_of_lt {n i : Nat} (h : n < 2 ^ i) :
    n &&& 2 ^ i = 0 := by
  rw [Nat.and_two_pow, Nat.testBit_lt_two_pow h]
  simp

theorem and_two_pow_ne_zero {n i : Nat} (h1 : 2 ^ i ≤ n) (h2 : n < 2 ^ (i + 1)) :
    n &&& 2 ^ i ≠ 0 := by
  rw [Nat.and_two_pow]
  have hdiv : n / 2 ^ i = 1 := by
    have hpos : 0 < 2 ^ i := Nat.pos_pow_of_pos i (by norm_num)
    have hge : 1 ≤ n / 2 ^ i := (Nat.le_div_iff_mul_le hpos).mpr (by simpa using h1)
    have hlt : n / 2 ^ i < 2 := by
      rw [Nat.div_lt_iff_lt_mul hpos]
      rw [pow_succ] at h2
      omega
    omega
  have ht : n.testBit i = true := by
    rw [Nat.testBit_to_div_mod, hdiv]
    rfl
  simp [ht]

theorem recombine32 (m : Nat) (hm : m < 2 ^ 32) :
    ((m >>> 16 &&& 0xFFFF) <<< 16) ||| (m &&& 0xFFFF) = m := by
  have hand : ∀ k : Nat, k &&& 0xFFFF = k % 2 ^ 16 := fun k => by
    simpa using Nat.and_pow_two_sub_one_eq_mod k 16
  have hq : m / 2 ^ 16 < 2 ^ 16 := by omega
  rw [hand, hand, Nat.shiftRight_eq_div_pow, Nat.mod_eq_of_lt hq,
    Nat.shiftLeft_eq, mul_comm, ← Nat.mul_add_lt_is_or (Nat.mod_lt _ (by norm_num)) _,
    Nat.div_add_mod]

theorem convert_single_low (r : Nat) (h : r < 2 ^ 15) :
    convert_registers_to_scaled_value [r] 1 true = some ((r : ℚ)) := by
  have hbit : r &&& 0x8000 = 0 := by
    have h0 := and_two_pow_eq_zero_of_lt (i := 15) h
    rwa [show (2 : Nat) ^ 15 = 0x8000 from by norm_num] at h0
  simp [convert_registers_to_scaled_value, hbit]

theorem convert_single_high (r : Nat) (h1 : 2 ^ 15 ≤ r) (h2 : r < 2 ^ 16) :
    convert_registers_to_scaled_value [r] 1 true =
      some ((((r : Int) - 0x10000 : Int) : ℚ)) := by
  have hbit : r &&& 0x8000 ≠ 0 := by
    have h0 := and_two_pow_ne_zero (i := 15) h1 (by omega)
    rwa [show (2 : Nat) ^ 15 = 0x8000 from by norm_num] at h0
  simp [convert_registers_to_scaled_value, hbit]

theorem convert_pair_low (m : Nat) (h : m < 2 ^ 31) :
    convert_registers_to_scaled_value [m >>> 16 &&& 0xFFFF, m &&& 0xFFFF] 1 true =
      some ((m : ℚ)) := by
  have hbit : m &&& 0x80000000 = 0 := by
    have h0 := and_two_pow_eq_zero_of_lt (i := 31) h
    rwa [show (2 : Nat) ^ 31 = 0x80000000 from by norm_num] at h0
  simp only [convert_registers_to_scaled_value, recombine32 m (by omega)]
  simp [hbit]

theorem convert_pair_high (m : Nat) (h1 : 2 ^ 31 ≤ m) (h2 : m < 2 ^ 32) :
    convert_registers_to_scaled_value [m >>> 16 &&& 0xFFFF, m &&& 0xFFFF] 1 true =
      some ((((m : Int) - 0x100000000 : Int) : ℚ)) := by
  have hbit : m &&& 0x80000000 ≠ 0 := by
    have h0 := and_two_pow_ne_zero (i := 31) h1 (by omega)
    rwa [show (2 : Nat) ^ 31 = 0x80000000 from by norm_num] at h0
  simp only [convert_registers_to_scaled_value, recombine32 m h2]
  simp [hbit]

/-- Claim C7 (confirmed): decoding is left inverse to encoding — the
high-word-first pair written by the Huawei PV-limit encoder at gain 1
decodes back to the original value over the whole signed 32-bit range,
and a single signed register decodes its 16-bit two's-complement image
back over the whole signed 16-bit range. -/
theorem register_roundtrip :
    (∀ v : Int, -(2 ^ 31) ≤ v → v < 2 ^ 31 →
      convert_registers_to_scaled_value (huawei_encode_regs (v : ℚ) 1 true) 1 true =
        some (v : ℚ)) ∧
    (∀ v : Int, -(2 ^ 15) ≤ v → v < 2 ^ 15 →
      convert_registers_to_scaled_value [encode16 v] 1 true = some (v : ℚ)) := by
  constructor
  · intro v hlo hhi
    have hraw0 : pyInt ((v : ℚ) * 1) = v := by
      rw [mul_one]
      simp [pyInt, Rat.num_intCast, Rat.den_intCast, Int.tdiv_one]
    rcases le_or_lt 0 v with hv | hv
    · have hv' : ¬ v < 0 := not_lt.mpr hv
      have hreg : huawei_encode_regs (v : ℚ) 1 true =
          [v.toNat >>> 16 &&& 0xFFFF, v.toNat &&& 0xFFFF] := by
        unfold huawei_encode_regs
        rw [hraw0]
        simp [hv']
      rw [hreg, convert_pair_low v.toNat (by omega)]
      congr 1
      exact_mod_cast congrArg (fun z : Int => (z : ℚ)) (Int.toNat_of_nonneg hv)
    · have hreg : huawei_encode_regs (v : ℚ) 1 true =
          [(2 ^ 32 + v).toNat >>> 16 &&& 0xFFFF, (2 ^ 32 + v).toNat &&& 0xFFFF] := by
        unfold huawei_encode_regs
        rw [hraw0]
        have hshift : ((1 <<< 32 : Nat) : Int) = 2 ^ 32 := by
          norm_num [Nat.shiftLeft_eq]
        simp [hv, hshift]
      have hcast : ((((2 ^ 32 + v).toNat : Int) - 0x100000000 : Int) : ℚ) = (v : ℚ) := by
        have hmi : (((2 ^ 32 + v).toNat : Int)) = 2 ^ 32 + v := by omega
        rw [hmi]
        push_cast
        ring
      have hb1 : 2 ^ 31 ≤ (2 ^ 32 + v).toNat := by omega
      have hb2 : (2 ^ 32 + v).toNat < 2 ^ 32 := by omega
      have hcp := convert_pair_high ((2 ^ 32 + v).toNat) hb1 hb2
      rw [hreg, hcp, hcast]
  · intro v hlo hhi
    rcases le_or_lt 0 v with hv | hv
    · have hmod : v % 65536 = v := by omega
      have hr : encode16 v = v.toNat := by rw [encode16, hmod]
      rw [hr, convert_single_low v.toNat (by omega)]
      congr 1
      exact_mod_cast congrArg (fun z : Int => (z : ℚ)) (Int.toNat_of_nonneg hv)
    · have hmod : v % 65536 = v + 65536 := by omega
      have hr : encode16 v = (v + 65536).toNat := by rw [encode16, hmod]
      have hcast : ((((v + 65536).toNat : Int) - 0x10000 : Int) : ℚ) = (v : ℚ) := by
        have hmi : (((v + 65536).toNat : Int)) = v + 65536 := by omega
        rw [hmi]
        push_cast
        ring
      rw [hr, convert_single_high (v + 65536).toNat (by omega) (by omega), hcast]

/-- Witness for `register_roundtrip`: the encodings of −12345 (32-bit, at
gain 1) and −3 (16-bit) decode back to the values themselves. -/
theorem register_roundtrip_witness :
    convert_registers_to_scaled_value (huawei_encode_regs ((-12345 : Int) : ℚ) 1 true)
      1 true = some (((-12345 : Int) : ℚ)) ∧
    convert_registers_to_scaled_value [encode16 (-3)] 1 true = some (((-3 : Int) : ℚ)) :=
  ⟨register_roundtrip.1 (-12345) (by norm_num) (by norm_num),
   register_roundtrip.2 (-3) (by norm_num) (by norm_num)⟩

/- ================= cos-phi normalisation ================= -/

/-- Embedding of `cosphi_to_phi_deg` from `collector_alteo_term1.py`:
`None` passes through; otherwise the input is clamped to [−1, 1], the
angle is `math.degrees(math.acos(abs(cos_phi)))`, and the sign of the
(clamped) cos φ is carried for Huawei while Fronius is always treated as
inductive (positive). -/
noncomputable def cosphi_to_phi_deg (cos_phi : Option ℝ) (manufacturer : String) :
    Option ℝ :=
  match cos_phi with
  | none => none
  | some c =>
      let c2 := max (-1) (min 1 c)
      let phi := Real.arccos |c2| * (180 / Real.pi)
      some (if manufacturer.toLower == "huawei" then
              (if 0 ≤ c2 then phi else -phi)
            else phi)

theorem degrees_arccos_le (x : ℝ) (hx : 0 ≤ x) :
    0 ≤ Real.arccos x * (180 / Real.pi) ∧
    Real.arccos x * (180 / Real.pi) ≤ 90 := by
  have hpi : (0 : ℝ) < Real.pi := Real.pi_pos
  have h0 : 0 ≤ Real.arccos x := Real.arccos_nonneg x
  have h2 : Real.arccos x ≤ Real.pi / 2 := Real.arccos_le_pi_div_two.mpr hx
  constructor
  · exact mul_nonneg h0 (by positivity)
  · have hmul : Real.arccos x * (180 / Real.pi) ≤ Real.pi / 2 * (180 / Real.pi) :=
      mul_le_mul_of_nonneg_right h2 (by positivity)
    have heq : Real.pi / 2 * (180 / Real.pi) = 90 := by
      rw [div_mul_div_comm, div_eq_iff (by positivity : (2 : ℝ) * Real.pi ≠ 0)]
      ring
    linarith

theorem phi_deg_mem (c : ℝ) (m : String) :
    ∃ y, cosphi_to_phi_deg (some c) m = some y ∧ -90 ≤ y ∧ y ≤ 90 ∧
      (0 ≤ y ∨ (m.toLower = "huawei" ∧ c < 0)) := by
  have habs : 0 ≤ |max (-1 : ℝ) (min 1 c)| := abs_nonneg _
  obtain ⟨h0, h90⟩ := degrees_arccos_le |max (-1 : ℝ) (min 1 c)| habs
  have heq : cosphi_to_phi_deg (some c) m =
      some (if m.toLower == "huawei" then
              (if (0 : ℝ) ≤ max (-1) (min 1 c) then
                Real.arccos |max (-1 : ℝ) (min 1 c)| * (180 / Real.pi)
              else -(Real.arccos |max (-1 : ℝ) (min 1 c)| * (180 / Real.pi)))
            else Real.arccos |max (-1 : ℝ) (min 1 c)| * (180 / Real.pi)) := rfl
  rw [heq]
  by_cases hm : (m.toLower == "huawei") = true
  · by_cases hc : (0 : ℝ) ≤ max (-1) (min 1 c)
    · refine ⟨_, by rw [if_pos hm, if_pos hc], ?_, ?_, Or.inl h0⟩ <;> linarith
    · have hcneg : c < 0 := by
        by_contra hcon
        push_neg at hcon
        exact hc (le_max_of_le_right (le_min (by norm_num) hcon))
      refine ⟨_, by rw [if_pos hm, if_neg hc], by linarith, by linarith,
        Or.inr ⟨by simpa using hm, hcneg⟩⟩
  · exact ⟨_, by rw [if_neg hm], by linarith, by linarith, Or.inl h0⟩

/-- Claim C10 (confirmed): the cos φ → φ-degrees conversion is total —
`None` maps to `None`, and any real input is clamped to [−1, 1] before
`acos`, so the result is an angle in degrees within [−90, 90], negative
only for Huawei with a negative cos φ. -/
theorem cosphi_to_phi_deg_safe :
    (∀ m : String, cosphi_to_phi_deg none m = none) ∧
    (∀ (c : ℝ) (m : String), ∃ y, cosphi_to_phi_deg (some c) m = some y ∧
      -90 ≤ y ∧ y ≤ 90 ∧ (0 ≤ y ∨ (m.toLower = "huawei" ∧ c < 0))) :=
  ⟨fun _ => rfl, phi_deg_mem⟩

/-- Telemetry record built by `collect_plant_data` (the fields the claims
consume); `available_power_max` and `reference_power` use Python
truthiness, so a 0.0 power reading yields `None`. -/
structure TermRecord where
  sum_active_power : Option ℝ
  cos_phi : Option ℝ
  phi_deg : Option ℝ
  available_power_min : Option ℝ
  available_power_max : Option ℝ
  reference_power : Option ℝ

/-- Embedding of the record construction in `collect_plant_data`: the raw
cos φ is kept in `cos_phi` (the in-range validation is commented out in
the source), the degree conversion in `phi_deg`. -/
noncomputable def collect_record (sap cos_phi_raw : Option ℝ)
    (manufacturer : String) : TermRecord :=
  { sum_active_power := sap
    cos_phi := cos_phi_raw
    phi_deg := cosphi_to_phi_deg cos_phi_raw manufacturer
    available_power_min := some 0
    available_power_max :=
      match sap with
      | some x => if x = 0 then none else some |x|
      | none => none
    reference_power :=
      match sap with
      | some x => if x = 0 then none else some |x|
      | none => none }

/-- Value bound to the `cos_phi` column by the INSERT in
`store_term1_data`: the column list names `cos_phi` but the VALUES tuple
supplies `r[\x22phi_deg\x22]`, so the stored value is the angle in
degrees, not the power factor. -/
def stored_cos_phi (r : TermRecord) : Option ℝ :=
  r.phi_deg

/- ================= sender.py payload and send path ================= -/

/-- Row returned by `get_latest_plant_data` for one plant (the
`measurement` dict of `send_sync`); the `cos_phi` field carries whatever
`plant_data_term1.cos_phi` holds. -/
structure Measurement where
  plant_id : Nat
  pod_id : String
  sum_active_power : Option ℝ
  cos_phi : Option ℝ
  available_power_min : Option ℝ
  available_power_max : Option ℝ
  reference_power : Option ℝ

/-- Latest `ess_data_term1` row as consumed by `build_payload`. -/
structure EssData where
  available_capacity_charge : Option ℝ
  available_capacity_discharge : Option ℝ
  average_current_soc : Option ℝ
  allowed_min_soc : Option ℝ
  allowed_max_soc : Option ℝ

/-- One element of the `values` array of the upstream payload. -/
structure PayloadItem where
  measurement : String
  value : Option ℝ
  quality : Nat

/-- One element of the request body: `{pod, values}`. -/
structure PodPayload where
  pod : String
  values : List PayloadItem

/-- Embedding of `build_payload` from `sender.py`: the six required
measurements, the ESS extension when an ESS row exists, and the
environment block when a recent average exists (the `env_temp` argument
of the source is unused there and omitted here). -/
def build_payload (meas : Measurement) (ess_data : Option EssData)
    (heartbeat_mirrored : ℝ)
    (batt_avg batt_min batt_max cont_avg cont_min cont_max : Option ℝ)
    (env_avg env_min env_max : Option ℝ) : PodPayload :=
  let base : List PayloadItem :=
    [⟨"heartbeatMirrored", some heartbeat_mirrored, 1⟩,
     ⟨"availablePowerMin", meas.available_power_min, 1⟩,
     ⟨"availablePowerMax", meas.available_power_max, 1⟩,
     ⟨"sumActivePower", meas.sum_active_power, 1⟩,
     ⟨"cosPhi", meas.cos_phi, 1⟩,
     ⟨"referencePower", meas.reference_power, 1⟩]
  let withEss : List PayloadItem :=
    base ++
      (match ess_data with
       | some e =>
           [⟨"availableCapacityCharge", e.available_capacity_charge, 1⟩,
            ⟨"availableCapacityDischarge", e.available_capacity_discharge, 1⟩,
            ⟨"averageBatterycellTemp", batt_avg, 1⟩,
            ⟨"averageBatterycellTempMIN", batt_min, 1⟩,
            ⟨"averageBatterycellTempMAX", batt_max, 1⟩,
            ⟨"averageContainerInsideTemp", cont_avg, 1⟩,
            ⟨"averageContainerInsideTempMIN", cont_min, 1⟩,
            ⟨"averageContainerInsideTempMAX", cont_max, 1⟩,
            ⟨"averageCurrentSOC", e.average_current_soc, 1⟩,
            ⟨"allowedMinSOC", e.allowed_min_soc, 1⟩,
            ⟨"allowedMaxSOC", e.allowed_max_soc, 1⟩]
       | none => [])
  let withEnv : List PayloadItem :=
    withEss ++
      (match env_avg with
       | some _ =>
           [⟨"averageEnvironmentTemp", env_avg, 1⟩,
            ⟨"averageEnvironmentTempMIN", env_min, 1⟩,
            ⟨"averageEnvironmentTempMAX", env_max, 1⟩]
       | none => [])
  ⟨meas.pod_id, withEnv⟩

/-- Lookup of a measurement's value in a payload values array. -/
def payloadValue (items : List PayloadItem) (name : String) : Option (Option ℝ) :=
  (items.find? (fun i => i.measurement == name)).map (fun i => i.value)

/-- Embedding of `get_last_heartbeat`: the heartbeat of the pod's inbox
row, or nothing when there is no row or the stored value is NULL. -/
def get_last_heartbeat (row : Option InboxRow) : Option Int :=
  row.bind (fun r => r.heartbeat)

/-- The heartbeat `send_sync` mirrors: `get_last_heartbeat(pod) or 1` —
Python's `or` replaces both `None` and `0` by 1. -/
def send_heartbeat_mirrored (row : Option InboxRow) : Int :=
  match get_last_heartbeat row with
  | none => 1
  | some h => if h = 0 then 1 else h

/-- Payload composed by `send_sync` for a pod: `build_payload` applied to
the mirrored heartbeat. -/
def send_sync_payload (row : Option InboxRow) (meas : Measurement)
    (ess_data : Option EssData)
    (batt_avg batt_min batt_max cont_avg cont_min cont_max : Option ℝ)
    (env_avg env_min env_max : Option ℝ) : PodPayload :=
  build_payload meas ess_data ((send_heartbeat_mirrored row : Int) : ℝ)
    batt_avg batt_min batt_max cont_avg cont_min cont_max env_avg env_min env_max

theorem payloadValue_heartbeat (row : Option InboxRow) (meas : Measurement)
    (ess_data : Option EssData)
    (b1 b2 b3 c1 c2 c3 e1 e2 e3 : Option ℝ) :
    payloadValue (send_sync_payload row meas ess_data b1 b2 b3 c1 c2 c3 e1 e2 e3).values
      "heartbeatMirrored" = some (some ((send_heartbeat_mirrored row : Int) : ℝ)) := by
  rfl

/-- Claim C6 (corrected): the `heartbeatMirrored` measurement of every
payload `send_sync` builds equals the heartbeat stored in the pod's inbox
row when that value is non-null and non-zero, and 1 when no heartbeat is
recorded; a stored heartbeat of 0 (or NULL) is also mirrored as 1,
because the source computes `get_last_heartbeat(pod) or 1` and Python's
`or` treats 0 as falsy. -/
theorem heartbeat_mirrored_value :
    ∀ (row : Option InboxRow) (meas : Measurement) (ess_data : Option EssData)
      (b1 b2 b3 c1 c2 c3 e1 e2 e3 : Option ℝ),
      (∀ h : Int, get_last_heartbeat row = some h → h ≠ 0 →
        payloadValue (send_sync_payload row meas ess_data b1 b2 b3 c1 c2 c3
          e1 e2 e3).values "heartbeatMirrored" = some (some ((h : Int) : ℝ))) ∧
      (get_last_heartbeat row = none →
        payloadValue (send_sync_payload row meas ess_data b1 b2 b3 c1 c2 c3
          e1 e2 e3).values "heartbeatMirrored" = some (some (1 : ℝ))) ∧
      (get_last_heartbeat row = some 0 →
        payloadValue (send_sync_payload row meas ess_data b1 b2 b3 c1 c2 c3
          e1 e2 e3).values "heartbeatMirrored" = some (some (1 : ℝ))) := by
  intro row meas ess_data b1 b2 b3 c1 c2 c3 e1 e2 e3
  refine ⟨?_, ?_, ?_⟩
  · intro h hrow hne
    rw [payloadValue_heartbeat]
    simp [send_heartbeat_mirrored, hrow, hne]
  · intro hrow
    rw [payloadValue_heartbeat]
    simp [send_heartbeat_mirrored, hrow]
  · intro hrow
    rw [payloadValue_heartbeat]
    simp [send_heartbeat_mirrored, hrow]

/-- Witness for `heartbeat_mirrored_value`: a stored heartbeat 7 is
mirrored as 7, and an absent row is mirrored as 1. -/
theorem heartbeat_mirrored_value_witness :
    payloadValue (send_sync_payload (some ⟨"POD1", some 7, none, none, none, 0⟩)
      ⟨1, "POD1", none, none, none, none, none⟩ none none none none none none none
      none none none).values "heartbeatMirrored" = some (some ((7 : Int) : ℝ)) ∧
    payloadValue (send_sync_payload none
      ⟨1, "POD1", none, none, none, none, none⟩ none none none none none none none
      none none none).values "heartbeatMirrored" = some (some (1 : ℝ)) :=
  ⟨(heartbeat_mirrored_value (some ⟨"POD1", some 7, none, none, none, 0⟩)
      ⟨1, "POD1", none, none, none, none, none⟩ none none none none none none none
      none none none).1 7 rfl (by decide),
   (heartbeat_mirrored_value none
      ⟨1, "POD1", none, none, none, none, none⟩ none none none none none none none
      none none none).2.1 rfl⟩

/-- Counterexample to claim C6 as stated: with a recorded heartbeat of 0
in the inbox, the payload carries `heartbeatMirrored = 1`, not the most
recent stored heartbeat 0. -/
theorem heartbeat_zero_mirrored_as_one :
    get_last_heartbeat (some ⟨"POD1", some 0, none, none, none, 0⟩) = some 0 ∧
    payloadValue (send_sync_payload (some ⟨"POD1", some 0, none, none, none, 0⟩)
      ⟨1, "POD1", none, none, none, none, none⟩ none none none none none none none
      none none none).values "heartbeatMirrored" = some (some (1 : ℝ)) ∧
    (1 : ℝ) ≠ 0 := by
  refine ⟨rfl, ?_, by norm_num⟩
  rw [payloadValue_heartbeat]
  norm_num [send_heartbeat_mirrored, get_last_heartbeat]

theorem payloadValue_cosPhi (meas : Measurement) (ess_data : Option EssData)
    (hb : ℝ) (b1 b2 b3 c1 c2 c3 e1 e2 e3 : Option ℝ) :
    payloadValue (build_payload meas ess_data hb b1 b2 b3 c1 c2 c3
      e1 e2 e3).values "cosPhi" = some meas.cos_phi := by
  rfl

/-- Claim C4 (corrected): what `build_payload` sends as `cosPhi` is
exactly the stored `cos_phi` column value, and that stored value — bound
from `phi_deg` by the INSERT of `store_term1_data` — is an angle in
degrees lying in [−90, 90], or null; it is not confined to [−1, 1] (see
the counterexample at cos φ = 0, which stores 90). -/
theorem cos_phi_sent_range :
    (∀ (meas : Measurement) (ess_data : Option EssData) (hb : ℝ)
       (b1 b2 b3 c1 c2 c3 e1 e2 e3 : Option ℝ),
      payloadValue (build_payload meas ess_data hb b1 b2 b3 c1 c2 c3
        e1 e2 e3).values "cosPhi" = some meas.cos_phi) ∧
    (∀ (sap raw : Option ℝ) (m : String),
      stored_cos_phi (collect_record sap raw m) = none ∨
      ∃ y, stored_cos_phi (collect_record sap raw m) = some y ∧
        -90 ≤ y ∧ y ≤ 90) := by
  refine ⟨payloadValue_cosPhi, ?_⟩
  intro sap raw m
  cases raw with
  | none => exact Or.inl rfl
  | some c =>
      right
      obtain ⟨y, hy, h1, h2, _⟩ := phi_deg_mem c m
      exact ⟨y, hy, h1, h2⟩

/-- Counterexample to claim C4 as stated: a raw cos φ reading of 0 is
stored (and hence sent as `cosPhi`) as 90 — the angle in degrees — which
is far outside [−1, 1] and not null. -/
theorem cos_phi_stored_out_of_range :
    stored_cos_phi (collect_record none (some 0) "fronius") = some 90 ∧
    (1 : ℝ) < 90 := by
  constructor
  · show cosphi_to_phi_deg (some 0) "fronius" = some 90
    have heq : cosphi_to_phi_deg (some 0) "fronius" =
        some (if "fronius".toLower == "huawei" then
                (if (0 : ℝ) ≤ max (-1) (min 1 0) then
                  Real.arccos |max (-1 : ℝ) (min 1 0)| * (180 / Real.pi)
                else -(Real.arccos |max (-1 : ℝ) (min 1 0)| * (180 / Real.pi)))
              else Real.arccos |max (-1 : ℝ) (min 1 0)| * (180 / Real.pi)) := rfl
    have hval : Real.arccos |max (-1 : ℝ) (min 1 0)| * (180 / Real.pi) = 90 := by
      have hz : |max (-1 : ℝ) (min 1 0)| = 0 := by norm_num
      rw [hz, Real.arccos_zero, div_mul_div_comm,
        div_eq_iff (by positivity : (2 : ℝ) * Real.pi ≠ 0)]
      ring
    rw [heq]
    rw [if_pos (by norm_num : (0 : ℝ) ≤ max (-1) (min 1 0)), hval, ite_self]
  · norm_num

/- ================= sender.py response handling ================= -/

/-- One entry of the `controls[]` array of an upstream reply. -/
structure ControlMsg where
  heartbeat : Option Int
  sumSetPoint : Option ℚ
  scheduledReference : Option ℚ

/-- Parsed JSON body of an upstream reply. -/
structure RespBody where
  controls : List ControlMsg

/-- What `send_sync` records as the response: the parsed JSON body, or a
`raw_text` object when `resp.json()` raised. -/
inductive RespData where
  | json (b : RespBody)
  | rawText (t : String)

/-- Row appended to `alteo_send_log` by `store_alteo_response`. -/
structure LogRow where
  pod : String
  request : PodPayload
  response : RespData
  status : Int

/-- Outcome of the `requests.post` call in `send_sync`: a response with a
status and a body (parsed JSON when possible, raw text otherwise), or a
transport exception raised by the call itself. -/
inductive HttpResult where
  | response (status : Int) (jsonBody : Option RespBody) (text : String)
  | transportError

/-- Embedding of the response handling of `send_sync` after the POST: on
a response, parse (or wrap the raw text), upsert the inbox when the
status is 200 and `controls[]` is nonempty, and append exactly one send
log row; a transport exception lands in the outer `except`, which only
prints — no log row is written on that path. -/
def send_sync_handle (row : Option InboxRow) (pod : String) (payload : PodPayload)
    (r : HttpResult) (now : ℚ) : Option InboxRow × List LogRow :=
  match r with
  | .transportError => (row, [])
  | .response status jsonBody text =>
      let response_data :=
        match jsonBody with
        | some b => RespData.json b
        | none => RespData.rawText text
      let row2 :=
        if status = 200 then
          match jsonBody with
          | some b =>
              match b.controls with
              | c :: _ =>
                  some (sender_upsert row pod c.heartbeat c.sumSetPoint
                    c.scheduledReference now)
              | [] => row
          | none => row
        else row
      (row2, [⟨pod, payload, response_data, status⟩])

/-- Claim C9 (corrected): every completed HTTP exchange — status 200 or
not, JSON body or not — appends exactly one send-log row holding the
request and either the parsed body or the raw-text wrapper; but a
transport exception appends nothing (the outer `except` only prints), and
it also leaves the inbox untouched. -/
theorem send_log_rows :
    ∀ (row : Option InboxRow) (pod : String) (payload : PodPayload)
      (status : Int) (jsonBody : Option RespBody) (text : String) (now : ℚ),
      (send_sync_handle row pod payload (.response status jsonBody text) now).2 =
        [⟨pod, payload,
          (match jsonBody with
           | some b => RespData.json b
           | none => RespData.rawText text), status⟩] ∧
      (send_sync_handle row pod payload .transportError now).2 = [] ∧
      (send_sync_handle row pod payload .transportError now).1 = row := by
  intro row pod payload status jsonBody text now
  exact ⟨rfl, rfl, rfl⟩

/-- Counterexample to claim C9 as stated: a transport exception during the
POST appends no send-log row at all, where the claim requires exactly
one row with a transport marker. -/
theorem transport_error_appends_no_row :
    (send_sync_handle none "POD1" ⟨"POD1", []⟩ .transportError 0).2.length = 0 ∧
    (0 : Nat) ≠ 1 := by
  exact ⟨rfl, by decide⟩

end Alteo
